import Mathlib

/-!
Shallow embedding of the document preparation script
`src/notebooks/preproc/inference.py` (page-image cleaning pipeline for OCR /
labelling, in batch or real-time mode), together with proofs about its
resize, orientation, page-pipeline and serving logic.

Python / PIL facts the embedding relies on, made explicit:
* `int(a * b / c)` on nonnegative integers is floor division `a * b / c`
  on `Nat` (exact for the magnitudes arising in these claims);
* a raised exception is modelled as `Except.error` with the message;
* `PIL.Image.paste` mutates its receiver in place and returns `None`;
* strings are modelled as `List Char` so that path manipulation
  (`os.path.dirname`, `str.split`, slicing) can be reasoned about by
  structural induction.
-/

set_option linter.unusedVariables false

/-- Python strings, as lists of characters. -/
abbrev Str := List Char

/-- A 0-255 (R, G, B) color triple. -/
abbrev RGB := Nat × Nat × Nat

/-- A decoded raster image (`PIL.Image.Image`): dimensions plus pixel grid.
`pix x y` is the pixel at column `x`, row `y` (only meaningful for
`x < width`, `y < height`). -/
structure Image where
  width : Nat
  height : Nat
  pix : Nat → Nat → RGB

/-- `image.resize((w, h), resample=...)` — the output has exactly the target
dimensions.  Resampled pixel values are modelled by coordinate scaling; the
concrete interpolation filter (bicubic by default) affects only pixel
values, never the dimensions, and no claim depends on interpolated values. -/
def Image.resize (img : Image) (w h : Nat) : Image :=
  ⟨w, h, fun x y => img.pix (x * img.width / w) (y * img.height / h)⟩

/-- `image.rotate(180, expand=True)`: same canvas, both axes flipped. -/
def Image.rot180 (img : Image) : Image :=
  ⟨img.width, img.height, fun x y => img.pix (img.width - 1 - x) (img.height - 1 - y)⟩

/-- `image.rotate(90, expand=True)`: 90° counter-clockwise, canvas expanded
to the swapped dimensions. -/
def Image.rot90 (img : Image) : Image :=
  ⟨img.height, img.width, fun x y => img.pix (img.width - 1 - y) x⟩

/-- `image.rotate(270, expand=True)`: 270° counter-clockwise (90° clockwise),
canvas expanded to the swapped dimensions. -/
def Image.rot270 (img : Image) : Image :=
  ⟨img.height, img.width, fun x y => img.pix y (img.height - 1 - x)⟩

/-- The `size` argument of `resize_image` (inference.py line 63): either a
single number or an explicit `(width, height)` pair. -/
inductive Size where
  | single (n : Nat)
  | pair (w h : Nat)

/-- inference.py lines 132-146, the tail of `resize_image` run after `size`
has been normalized to a `(width, height)` pair.

The letterbox branch (lines 132-143) builds a solid-color canvas and then
executes `return result.paste(scaled, offset)`.  `PIL.Image.paste` pastes
in place and returns `None`, so the Python function returns `None` in this
branch; that is modelled as `Except.ok none`.  The stretch branch (line
146) returns `image.resize(size)`. -/
def finishResize (image : Image) (size : Nat × Nat) (letterbox_color : Option RGB) :
    Except String (Option Image) :=
  match letterbox_color with
  | some _ => Except.ok none
  | none => Except.ok (some (image.resize size.1 size.2))

/-- inference.py line 113 (`ishort`): the smaller of width and height. -/
def shortEdge (img : Image) : Nat := if img.width ≤ img.height then img.width else img.height

/-- inference.py line 113 (`ilong`): the larger of width and height. -/
def longEdge (img : Image) : Nat := if img.width ≤ img.height then img.height else img.width

/-- inference.py lines 61-146: `resize_image(image, size, default_square,
letterbox_color, max_size, resample)`.

* `Except.error msg` models a raised `ValueError`;
* `Except.ok (some img)` models returning the image `img`;
* `Except.ok none` models returning Python `None` (the letterbox branch,
  see `finishResize`).

The `resample` argument influences only interpolated pixel values and is
not modelled (see `Image.resize`). -/
def resize_image (image : Image) (size : Size) (default_square : Bool)
    (letterbox_color : Option RGB) (max_size : Option Nat) :
    Except String (Option Image) :=
  match size, default_square with
  | .pair w h, _ => finishResize image (w, h) letterbox_color
  | .single n, true =>
    -- line 108: treat as square
    finishResize image (n, n) letterbox_color
  | .single n, false =>
    -- lines 110-130: specified target shortest edge size
    let short := n
    let ishort := shortEdge image
    let ilong := longEdge image
    if short = ishort then Except.ok (some image)  -- line 116: return image
    else
      let long := short * ilong / ishort  -- line 118
      match max_size with
      | none =>
        finishResize image
          (if image.width ≤ image.height then (short, long) else (long, short))
          letterbox_color
      | some m =>
        if m ≤ short then
          -- lines 122-126
          Except.error ("max_size = " ++ toString m ++
            " must be strictly greater than the requested size for the smaller edge = " ++
            toString short)
        else
          -- lines 127-128
          let short2 := if m < long then m * short / long else short
          let long2 := if m < long then m else long
          finishResize image
            (if image.width ≤ image.height then (short2, long2) else (long2, short2))
            letterbox_color

/-! ### Python string / path helpers -/

/-- Python `str.lower()` (ASCII case folding, as used for file extensions). -/
def strLower (s : Str) : Str := s.map Char.toLower

/-- Python `s.split(sep)` for a one-character separator: `"".split(sep)` is
`[""]`, and `n` separators yield `n + 1` fields. -/
def splitOnChar (sep : Char) : Str → List Str
  | [] => [[]]
  | c :: rest =>
    match splitOnChar sep rest with
    | [] => [[]]  -- unreachable: the split of any string is nonempty
    | s :: ss => if c = sep then [] :: s :: ss else (c :: s) :: ss

/-- `os.path.dirname(p)` (POSIX): everything up to and including the final
`/`, with trailing slashes then stripped (kept when that prefix is all
slashes); `""` when `p` contains no `/`. -/
def pyDirname (p : Str) : Str :=
  let head := (p.reverse.dropWhile (fun c => c != '/')).reverse
  if head = [] then []
  else if head.all (fun c => c == '/') then head
  else (head.reverse.dropWhile (fun c => c == '/')).reverse

/-- `os.path.basename(p)` (POSIX): everything after the final `/`. -/
def pyBasename (p : Str) : Str :=
  (p.reverse.takeWhile (fun c => c != '/')).reverse

/-- `os.path.join(a, b)` (POSIX, two components). -/
def pyJoin (a b : Str) : Str :=
  if b.head? = some '/' then b
  else if a = [] ∨ a.getLast? = some '/' then a ++ b
  else a ++ '/' :: b

/-- inference.py lines 47-49: `split_filename` via
`filename.rpartition(".")` — `(basename, ext)` split around the last `.`;
when there is no `.`, `rpartition` yields `("", "", filename)`, so the
whole name becomes the extension. -/
def split_filename (filename : Str) : Str × Str :=
  let extRev := filename.reverse.takeWhile (fun c => c ≠ '.')
  if extRev.length = filename.length then ([], filename)
  else ((filename.reverse.drop (extRev.length + 1)).reverse, extRev.reverse)

/-- Python `"%04i" % n`: decimal digits, zero-padded to width at least 4. -/
def pad4 (n : Nat) : Str :=
  let s := Nat.toDigits 10 n
  List.replicate (4 - s.length) '0' ++ s

/-- Does `s` start with `pat`? (helper for `str.replace`). -/
def strStarts : Str → Str → Bool
  | [], _ => true
  | _ :: _, [] => false
  | p :: ps, c :: cs => p = c && strStarts ps cs

/-- Python `s.replace(pat, rep)` for non-empty `pat` (used at lines 241 and
309 with `to_basepath` as the pattern): replace every non-overlapping
occurrence, scanning left to right. -/
def replaceAll (pat rep : Str) : Str → Str
  | [] => []
  | c :: rest =>
    if !pat.isEmpty && strStarts pat (c :: rest) then
      rep ++ replaceAll pat rep (rest.drop (pat.length - 1))
    else
      c :: replaceAll pat rep rest
termination_by s => s.length
decreasing_by
  · simp only [List.length_drop, List.length_cons]
    omega
  · simp only [List.length_cons]
    omega

/-! ### EXIF orientation normalization -/

/-- inference.py lines 275-288: EXIF-driven orientation correction of one
page.  `ORIENTATION_EXIF_ID` (lines 33-44) is the numeric EXIF tag named
"Orientation"; the looked-up `exif.get(ORIENTATION_EXIF_ID)` value is
carried as an `Option Nat`.  Mapping: code 3 → rotate 180°, code 6 →
rotate 270°, code 8 → rotate 90° (each with `expand=True`), anything else
→ unchanged; the Bool is the `rotated` flag. -/
def exifOrient (img_orientation : Option Nat) (image : Image) : Image × Bool :=
  if img_orientation = some 3 then (image.rot180, true)
  else if img_orientation = some 6 then (image.rot270, true)
  else if img_orientation = some 8 then (image.rot90, true)
  else (image, false)

/-! ### Page pipeline (`clean_document_for_img_ocr`, lines 149-331) -/

/-- One frame of a loaded image file: its EXIF orientation value (if any)
and its pixel data.  `image.seek(ixpage)` on a multi-frame file is
modelled by processing the file's frames in stored order. -/
structure Frame where
  orientation : Option Nat
  image : Image

/-- A source document as the pipeline sees it: its relative path, raw file
bytes, and what the external codecs yield for it — `pdfPages` is the list
of (filename, image) pages `pdf2image.convert_from_path` writes when the
extension is `pdf`; `imageFrames` is the frame list `PIL.Image.open`
yields otherwise, with `none` modelling a raised
`PIL.UnidentifiedImageError` (undecodable bytes). -/
structure SourceDoc where
  relpath : Str
  bytes : List Nat
  pdfPages : List (Str × Image)
  imageFrames : Option (List Frame)

/-- A file written by the pipeline: either a verbatim byte-for-byte copy of
the source file (`shutil.copy2`, line 293) or an image encoded and saved
(`image.save`, lines 306, 248 and 316). -/
inductive PageOutput where
  | copyBytes (path : Str)
  | saveImage (path : Str) (img : Image)

/-- The bytes that end up in a written file, for an arbitrary encoder: a
verbatim copy carries the source file's bytes unchanged; a save writes
whatever the encoder produces for the image. -/
def PageOutput.bytesWritten (srcBytes : List Nat) (encode : Image → List Nat) :
    PageOutput → List Nat
  | .copyBytes _ => srcBytes
  | .saveImage _ img => encode img

/-- inference.py lines 52-58: `ImageExtractionResult`. -/
structure ImageExtractionResult where
  rawpath : Str
  cleanpaths : List Str
  cats : List Str

/-- The result descriptor of one processed document together with the file
writes it performed. -/
structure DocOutcome where
  result : ImageExtractionResult
  writes : List PageOutput

/-- The keyword arguments of `clean_document_for_img_ocr` (lines 149-162);
`wait` only sleeps and is not modelled. -/
structure CleanDocArgs where
  from_basepath : Str
  to_basepath : Str
  pdf_dpi : Nat
  pdf_image_format : Str
  allowed_formats : List Str
  preferred_image_format : Str
  thumbs_basepath : Option Str
  thumbs_size : Size
  thumbs_default_square : Bool
  thumbs_letterbox_color : Option RGB
  thumbs_max_size : Option Nat

/-- The defaults of `clean_document_for_img_ocr`'s keyword arguments. -/
def cleanDocArgsDefault (from_basepath to_basepath : Str) : CleanDocArgs :=
  { from_basepath := from_basepath
    to_basepath := to_basepath
    pdf_dpi := 300
    pdf_image_format := "png".toList
    allowed_formats := ["jpg".toList, "jpeg".toList, "png".toList]
    preferred_image_format := "png".toList
    thumbs_basepath := none
    thumbs_size := .pair 224 224
    thumbs_default_square := true
    thumbs_letterbox_color := none
    thumbs_max_size := none }

/-- Generate and save one thumbnail (lines 239-248 and 308-316):
`resize_image(...).save(thumbpath)`.  A `ValueError` raised by
`resize_image` propagates; when `resize_image` returns `None` (its
letterbox branch), calling `.save` on `None` raises an `AttributeError`. -/
def saveThumb (args : CleanDocArgs) (image : Image) (thumbpath : Str) :
    Except String PageOutput :=
  match resize_image image args.thumbs_size args.thumbs_default_square
      args.thumbs_letterbox_color args.thumbs_max_size with
  | .error e => .error e
  | .ok none => .error "AttributeError: NoneType object has no attribute save"
  | .ok (some t) => .ok (.saveImage thumbpath t)

/-- The per-frame loop of `clean_document_for_img_ocr` (lines 271-328),
starting at 0-based page index `ixpage`: normalize orientation, decide the
write strategy (verbatim copy exactly when the file has one page, no
format conversion is needed and no rotation occurred), then the optional
thumbnail.  Returns each frame's `outpath` paired with the writes made for
that frame, in order. -/
def processFrames (args : CleanDocArgs) (outfolder filename basename ext : Str)
    (convert_format : Bool) (nPages : Nat) :
    Nat → List Frame → Except String (List (Str × List PageOutput))
  | _, [] => .ok []
  | ixpage, fr :: rest =>
    -- lines 275-288: orientation correction
    let rot := exifOrient fr.orientation fr.image
    let res : Except String (Str × List PageOutput) :=
      if nPages = 1 ∧ convert_format = false ∧ rot.2 = false then
        -- lines 290-293: the image file is copied across verbatim
        let outpath := pyJoin outfolder filename
        match args.thumbs_basepath with
        | none => .ok (outpath, [.copyBytes outpath])
        | some tb =>
          match saveThumb args rot.1 (replaceAll args.to_basepath tb outpath) with
          | .error e => .error e
          | .ok w => .ok (outpath, [.copyBytes outpath, w])
      else
        -- lines 294-306: re-encode (page-index suffix when multi-page)
        let outpath := pyJoin outfolder
          (basename ++ (if 1 < nPages then '-' :: pad4 (ixpage + 1) else []) ++
            '.' :: (if convert_format then args.preferred_image_format else ext))
        match args.thumbs_basepath with
        | none => .ok (outpath, [.saveImage outpath rot.1])
        | some tb =>
          match saveThumb args rot.1 (replaceAll args.to_basepath tb outpath) with
          | .error e => .error e
          | .ok w => .ok (outpath, [.saveImage outpath rot.1, w])
    match res with
    | .error e => .error e
    | .ok r =>
      match processFrames args outfolder filename basename ext convert_format nPages
          (ixpage + 1) rest with
      | .error e => .error e
      | .ok rs => .ok (r :: rs)

/-- Thumbnails for the rasterized PDF pages (lines 239-248). -/
def pdfThumbs (args : CleanDocArgs) (tb : Str) :
    List (Str × Image) → Except String (List PageOutput)
  | [] => .ok []
  | pg :: rest =>
    match saveThumb args pg.2 (replaceAll args.to_basepath tb pg.1) with
    | .error e => .error e
    | .ok w =>
      match pdfThumbs args tb rest with
      | .error e => .error e
      | .ok ws => .ok (w :: ws)

/-- inference.py lines 149-331: `clean_document_for_img_ocr`.  Directory
creation, logging and `time.sleep` are I/O-only and not modelled.
`Except.error` models a raised exception (fatal), `Except.ok none` the
`return None` taken when `PIL.Image.open` raises `UnidentifiedImageError`
(lines 259-263, after a warning log), and `Except.ok (some outcome)` a
normal return. -/
def clean_document_for_img_ocr (args : CleanDocArgs) (doc : SourceDoc) :
    Except String (Option DocOutcome) :=
  let full_filepath := pyJoin args.from_basepath doc.relpath
  let filename := pyBasename doc.relpath
  let subfolder := pyDirname doc.relpath
  let outfolder := pyJoin args.to_basepath subfolder
  let basename := (split_filename filename).1
  let ext := (split_filename filename).2
  let ext_lower := strLower ext
  -- line 220: cats = subfolder[1:].split(os.path.sep)
  let cats := splitOnChar '/' (subfolder.drop 1)
  if ext_lower = "pdf".toList then
    -- lines 222-257: rasterize with pdf2image (which writes and names the
    -- page image files itself), then optional thumbnails per page
    let cleanpaths := doc.pdfPages.map Prod.fst
    match args.thumbs_basepath with
    | none => .ok (some ⟨⟨full_filepath, cleanpaths, cats⟩, []⟩)
    | some tb =>
      match pdfThumbs args tb doc.pdfPages with
      | .error e => .error e
      | .ok ws => .ok (some ⟨⟨full_filepath, cleanpaths, cats⟩, ws⟩)
  else
    match doc.imageFrames with
    | none => .ok none  -- lines 259-263: UnidentifiedImageError → warn, skip
    | some frames =>
      -- line 269: convert_format = not ext_lower in allowed_formats
      let convert_format : Bool := if ext_lower ∈ args.allowed_formats then false else true
      match processFrames args outfolder filename basename ext convert_format
          frames.length 0 frames with
      | .error e => .error e
      | .ok rs =>
        .ok (some ⟨⟨full_filepath, rs.map Prod.fst, cats⟩, (rs.map Prod.snd).flatten⟩)

/-- inference.py lines 334-418: `clean_dataset_for_img_ocr`, over an
already-listed sequence of documents: process in order, append each
non-`None` result, skip `None` results (the document was skipped and the
warning already printed); a raised exception propagates and aborts the
batch. -/
def clean_dataset_for_img_ocr (args : CleanDocArgs) :
    List SourceDoc → Except String (List DocOutcome)
  | [] => .ok []
  | d :: rest =>
    match clean_document_for_img_ocr args d with
    | .error e => .error e
    | .ok none => clean_dataset_for_img_ocr args rest
    | .ok (some r) =>
      match clean_dataset_for_img_ocr args rest with
      | .error e => .error e
      | .ok rs => .ok (r :: rs)

/-! ### Real-time endpoint serving (lines 508-710) -/

/-- inference.py lines 520-524. -/
def SINGLE_IMAGE_CONTENT_TYPES : List (String × String) :=
  [("image/jpeg", "JPG"), ("image/jpg", "JPG"), ("image/png", "PNG")]

/-- inference.py lines 525-527. -/
def MULTI_IMAGE_CONTENT_TYPES : List (String × String) := [("image/tiff", "TIFF")]

/-- inference.py line 528. -/
def PDF_CONTENT_TYPES : List String := ["application/pdf"]

/-- Membership-plus-indexing into the `SINGLE_IMAGE_CONTENT_TYPES` dict:
the PIL format name for a single-image content type, `none` when the
content type is not in the dict. -/
def singleImageFmt (ct : String) : Option String :=
  if ct = "image/jpeg" then some "JPG"
  else if ct = "image/jpg" then some "JPG"
  else if ct = "image/png" then some "PNG"
  else none

/-- Membership-plus-indexing into the `MULTI_IMAGE_CONTENT_TYPES` dict. -/
def multiImageFmt (ct : String) : Option String :=
  if ct = "image/tiff" then some "TIFF" else none

/-- The deserialized request `input_fn` returns: a dict with `"type"` and
either `"image"` (a loaded single image) or `"doc"` (raw document bytes
for the multi-page formats). -/
inductive RtRequest where
  | image (img : Image) (fmt : String)
  | doc (bytes : List Nat) (fmt : String)

/-- inference.py lines 561-592: `input_fn`.  `decodeImage` stands for the
PIL codec invoked at line 578 (`PIL.Image.open` on the request buffer);
`none` models a raised `UnidentifiedImageError`. -/
def input_fn (decodeImage : List Nat → Option Image) (input_bytes : List Nat)
    (content_type : String) : Except String RtRequest :=
  match singleImageFmt content_type with
  | some fmt =>
    match decodeImage input_bytes with
    | some img => .ok (.image img fmt)
    | none => .error "UnidentifiedImageError"
  | none =>
    if content_type ∈ PDF_CONTENT_TYPES then .ok (.doc input_bytes "pdf")
    else
      match multiImageFmt content_type with
      | some fmt => .ok (.doc input_bytes fmt)
      | none =>
        .error ("Unrecognised request content type " ++ content_type ++
          " not in supported list")

/-- The shape of `predict_fn`'s result dict: `"image"` (single-image
request) or `"images"` (document request). -/
inductive PredictionOutput where
  | image (img : Image)
  | images (imgs : List Image)

/-- The serialized response bodies `output_fn` can produce (the byte-level
numpy encodings are abstracted to which branch produced them and from
which data). -/
inductive RtResponseBody where
  | imageEncoded (fmt : String) (img : Image)
  | npySingle (img : Image)
  | npzSingle (img : Image)
  | npyMulti (imgs : List Image)
  | npzMulti (imgs : List Image)

/-- inference.py lines 657-710: `output_fn`. -/
def output_fn (prediction_output : PredictionOutput) (accept : String) :
    Except String RtResponseBody :=
  match singleImageFmt accept with
  | some fmt =>
    match prediction_output with
    | .image img => .ok (.imageEncoded fmt img)
    | .images _ =>
      .error ("Requested content type " ++ accept ++
        " can only be used for single-page images. Try application/x-npz.")
  | none =>
    if accept = "application/x-npy" ∨ accept = "application/x-npz" then
      match prediction_output with
      | .image img =>
        .ok (if accept = "application/x-npz" then .npzSingle img else .npySingle img)
      | .images imgs =>
        .ok (if accept = "application/x-npz" then .npzMulti imgs else .npyMulti imgs)
    else
      .error ("Requested content type " ++ accept ++ " not recognised.")

/-- Sample image: 1000 wide, 100 high, all black. -/
def imgW1000H100 : Image := ⟨1000, 100, fun _ _ => (0, 0, 0)⟩

/-- Sample image: 200 wide, 100 high, all black. -/
def imgW200H100 : Image := ⟨200, 100, fun _ _ => (0, 0, 0)⟩

/-- Sample document whose declared kind is an image but whose bytes the
codec cannot decode. -/
def badDoc : SourceDoc := ⟨"bad.png".toList, [7, 7], [], none⟩

/-- Sample single-frame PNG document with no EXIF rotation. -/
def okDoc : SourceDoc := ⟨"photo.png".toList, [1, 2, 3], [], some [⟨some 1, imgW200H100⟩]⟩

/-- Sample PDF document in an `invoices/` subfolder (no pages, no thumbs:
only the result descriptor matters). -/
def invoiceDoc : SourceDoc := ⟨"invoices/doc.pdf".toList, [], [], none⟩

/-- Sample processing arguments: defaults with input root `/in` and output
root `/out`. -/
def sampleArgs : CleanDocArgs := cleanDocArgsDefault "/in".toList "/out".toList

/-- The outcome the pipeline produces for `invoiceDoc` under `sampleArgs`:
note the first category is `nvoices`, not `invoices`. -/
def invoiceOutcome : DocOutcome :=
  ⟨⟨"/in/invoices/doc.pdf".toList, [], ["nvoices".toList]⟩, []⟩

/-- Helper: in single-number non-square mode, a source whose short edge
already equals the requested size is returned unchanged (inference.py line
116), before the `max_size` check and before the letterbox branch. -/
theorem resize_image_short_edge_eq (image : Image) (s : Nat) (lb : Option RGB)
    (ms : Option Nat) (h : shortEdge image = s) :
    resize_image image (.single s) false lb ms = Except.ok (some image) := by
  simp only [resize_image]
  rw [h]
  simp

/-- C5: in single-number non-square mode, when the source's short edge
already equals the target size, `resize_image` returns the source image
itself unchanged, for every letterbox color and `max_size` setting. -/
theorem c5_resize_identity_when_short_edge_matches (image : Image) (s : Nat)
    (lb : Option RGB) (ms : Option Nat) (h : shortEdge image = s) :
    resize_image image (.single s) false lb ms = Except.ok (some image) :=
  resize_image_short_edge_eq image s lb ms h

/-- C5 witness: a 1000×100 source with target short edge 100 and
`max_size` 150 is returned unchanged. -/
theorem c5_witness :
    shortEdge imgW1000H100 = 100 ∧
      resize_image imgW1000H100 (.single 100) false none (some 150) =
        Except.ok (some imgW1000H100) :=
  ⟨by decide, c5_resize_identity_when_short_edge_matches imgW1000H100 100 none (some 150)
    (by decide)⟩

/-- C9: the identity-case early return (line 116) fires before the
`max_size` validity check (lines 121-126): when the short edge already
equals the requested size, `resize_image` returns the source with no error
even though `max_size ≤ size` is an invalid configuration. -/
theorem c9_identity_return_skips_max_size_check (image : Image) (s m : Nat)
    (lb : Option RGB) (hm : m ≤ s) (h : shortEdge image = s) :
    resize_image image (.single s) false lb (some m) = Except.ok (some image) :=
  resize_image_short_edge_eq image s lb (some m) h

/-- C9 witness: a 1000×100 source, requested short edge 100 and invalid
`max_size` 50 ≤ 100: the image is returned and no error is raised. -/
theorem c9_witness :
    (50 ≤ 100 ∧ shortEdge imgW1000H100 = 100) ∧
      resize_image imgW1000H100 (.single 100) false none (some 50) =
        Except.ok (some imgW1000H100) :=
  ⟨⟨by decide, by decide⟩,
    c9_identity_return_skips_max_size_check imgW1000H100 100 50 none (by decide) (by decide)⟩

/-- C2 counterexample: the `max_size ≤ size` configuration is not rejected
at construction time.  With the same invalid configuration
(`max_size = 30 ≤ size`), the per-page `resize_image` call itself raises
the `ValueError` when actual resizing is needed (size 50 on a 1000×100
source), and silently succeeds on the identity path (size 100 on the same
source) — so rejection is deferred to, and even skipped at, call time. -/
theorem c2_counterexample :
    (∃ e, resize_image imgW1000H100 (.single 50) false none (some 30) = Except.error e) ∧
      resize_image imgW1000H100 (.single 100) false none (some 30) =
        Except.ok (some imgW1000H100) :=
  ⟨⟨_, rfl⟩, rfl⟩

/-- C2 (amended): `max_size ≤ size` in single-number non-square mode is
rejected with a `ValueError` raised inside `resize_image` itself at call
time — and only on calls where the source's short edge differs from the
requested size; when the short edge already equals the target, the check is
skipped and the source is returned. -/
theorem c2_max_size_check_at_call_time (image : Image) (s m : Nat) (lb : Option RGB)
    (hw : 0 < image.width) (hh : 0 < image.height) (hm : m ≤ s) :
    (shortEdge image ≠ s →
      ∃ e, resize_image image (.single s) false lb (some m) = Except.error e) ∧
    (shortEdge image = s →
      resize_image image (.single s) false lb (some m) = Except.ok (some image)) := by
  constructor
  · intro hne
    simp only [resize_image]
    rw [if_neg (fun hc => hne hc.symm), if_pos hm]
    exact ⟨_, rfl⟩
  · intro h
    exact resize_image_short_edge_eq image s lb (some m) h

/-- C2 witness (for the amended claim): a 1000×100 source, requested size
50, invalid `max_size` 30: the call raises, and on the identity path it
does not. -/
theorem c2_witness :
    (0 < imgW1000H100.width ∧ 0 < imgW1000H100.height ∧ 30 ≤ 50 ∧ shortEdge imgW1000H100 ≠ 50) ∧
      (∃ e, resize_image imgW1000H100 (.single 50) false none (some 30) = Except.error e) :=
  ⟨⟨by decide, by decide, by decide, by decide⟩,
    (c2_max_size_check_at_call_time imgW1000H100 50 30 none (by decide) (by decide)
      (by decide)).1 (by decide)⟩

/-- C6: in single-number non-square mode with `max_size` set, when the
aspect-preserving long edge computed for the requested short edge exceeds
`max_size`, the output's long edge is exactly `max_size` and its short edge
is `int(max_size * short / long)` — proportionally reduced below the
originally requested size. -/
theorem c6_long_edge_clamped_to_max_size (image : Image) (s m : Nat)
    (hw : 0 < image.width) (hh : 0 < image.height)
    (hne : shortEdge image ≠ s) (hsm : s < m)
    (hclamp : m < s * longEdge image / shortEdge image) :
    ∃ r, resize_image image (.single s) false none (some m) = Except.ok (some r) ∧
      max r.width r.height = m ∧
      min r.width r.height = m * s / (s * longEdge image / shortEdge image) ∧
      min r.width r.height < s := by
  have hlongpos : 0 < s * longEdge image / shortEdge image :=
    Nat.lt_of_le_of_lt (Nat.zero_le m) hclamp
  have hs : 0 < s := by
    rcases Nat.eq_zero_or_pos s with h0 | h0
    · exfalso; subst h0; simp at hclamp
    · exact h0
  have hs2m : m * s / (s * longEdge image / shortEdge image) ≤ m := by
    calc m * s / (s * longEdge image / shortEdge image)
        ≤ m * (s * longEdge image / shortEdge image) / (s * longEdge image / shortEdge image) :=
          Nat.div_le_div_right
            (Nat.mul_le_mul_left m (le_of_lt (lt_trans hsm hclamp)))
      _ = m := Nat.mul_div_cancel m hlongpos
  have hs2s : m * s / (s * longEdge image / shortEdge image) < s := by
    rw [Nat.div_lt_iff_lt_mul hlongpos]
    calc m * s < (s * longEdge image / shortEdge image) * s :=
          mul_lt_mul_of_pos_right hclamp hs
      _ = s * (s * longEdge image / shortEdge image) := Nat.mul_comm _ _
  by_cases hwh : image.width ≤ image.height
  · refine ⟨image.resize (m * s / (s * longEdge image / shortEdge image)) m, ?_, ?_, ?_, ?_⟩
    · simp only [resize_image]
      rw [if_neg (fun hc => hne hc.symm), if_neg (Nat.not_le.mpr hsm), if_pos hclamp,
        if_pos hclamp, if_pos hwh]
      rfl
    · exact Nat.max_eq_right hs2m
    · exact Nat.min_eq_left hs2m
    · exact lt_of_le_of_lt (Nat.min_le_left _ _) hs2s
  · refine ⟨image.resize m (m * s / (s * longEdge image / shortEdge image)), ?_, ?_, ?_, ?_⟩
    · simp only [resize_image]
      rw [if_neg (fun hc => hne hc.symm), if_neg (Nat.not_le.mpr hsm), if_pos hclamp,
        if_pos hclamp, if_neg hwh]
      rfl
    · exact Nat.max_eq_left hs2m
    · exact Nat.min_eq_right hs2m
    · exact lt_of_le_of_lt (Nat.min_le_right _ _) hs2s

/-- C6 witness: a 1000×100 source, requested short edge 50, `max_size` 80:
the output long edge is clamped to exactly 80 and the short edge drops
below 50 (to 8). -/
theorem c6_witness :
    (shortEdge imgW1000H100 ≠ 50 ∧ 50 < 80 ∧
        80 < 50 * longEdge imgW1000H100 / shortEdge imgW1000H100) ∧
      (∃ r, resize_image imgW1000H100 (.single 50) false none (some 80) = Except.ok (some r) ∧
        max r.width r.height = 80 ∧
        min r.width r.height = 80 * 50 / (50 * longEdge imgW1000H100 / shortEdge imgW1000H100) ∧
        min r.width r.height < 50) :=
  ⟨⟨by decide, by decide, by decide⟩,
    c6_long_edge_clamped_to_max_size imgW1000H100 50 80 (by decide) (by decide) (by decide)
      (by decide) (by decide)⟩

/-- C1 (code bug), evaluated at the failing input: a 200×100 source with
explicit target (100, 100) and letterbox color (255, 255, 255).
`resize_image` returns Python `None` — the return value of the in-place
`PIL.Image.paste` call on line 140 — instead of the promised 100×100
letterboxed image (`Except.ok none` models returning `None`). -/
theorem c1_letterbox_branch_returns_none :
    resize_image imgW200H100 (.pair 100 100) true (some (255, 255, 255)) none =
      Except.ok none := rfl

/-- Helper: any orientation code other than 3, 6 or 8 (including 1, absent,
or unrecognized) leaves the page unrotated. -/
theorem exifOrient_other (code : Option Nat) (image : Image)
    (h3 : code ≠ some 3) (h6 : code ≠ some 6) (h8 : code ≠ some 8) :
    exifOrient code image = (image, false) := by
  simp [exifOrient, h3, h6, h8]

/-- C4: the orientation normalizer rotates by exactly 180° for code 3,
270° for code 6, 90° for code 8 and not at all for any other value, records
the `rotated` flag accordingly, and every applied rotation expands the
canvas to fit the rotated content without cropping (the canvas area is
preserved and every in-bounds source pixel value appears in bounds in the
output). -/
theorem c4_orientation_normalizer (image : Image) (code : Option Nat) :
    exifOrient (some 3) image = (image.rot180, true) ∧
    exifOrient (some 6) image = (image.rot270, true) ∧
    exifOrient (some 8) image = (image.rot90, true) ∧
    (code ≠ some 3 → code ≠ some 6 → code ≠ some 8 →
      exifOrient code image = (image, false)) ∧
    ((exifOrient code image).2 = true →
      (exifOrient code image).1.width * (exifOrient code image).1.height =
          image.width * image.height ∧
        ∀ x y, x < image.width → y < image.height →
          ∃ a b, a < (exifOrient code image).1.width ∧
            b < (exifOrient code image).1.height ∧
            (exifOrient code image).1.pix a b = image.pix x y) := by
  refine ⟨rfl, rfl, rfl, fun h3 h6 h8 => exifOrient_other code image h3 h6 h8,
    fun hrot => ?_⟩
  by_cases h3 : code = some 3
  · subst h3
    refine ⟨rfl, fun x y hx hy => ?_⟩
    refine ⟨image.width - 1 - x, image.height - 1 - y, ?_, ?_, ?_⟩
    · show image.width - 1 - x < image.width
      omega
    · show image.height - 1 - y < image.height
      omega
    · show image.pix (image.width - 1 - (image.width - 1 - x))
          (image.height - 1 - (image.height - 1 - y)) = image.pix x y
      rw [show image.width - 1 - (image.width - 1 - x) = x by omega,
        show image.height - 1 - (image.height - 1 - y) = y by omega]
  · by_cases h6 : code = some 6
    · subst h6
      refine ⟨Nat.mul_comm _ _, fun x y hx hy => ?_⟩
      refine ⟨image.height - 1 - y, x, ?_, ?_, ?_⟩
      · show image.height - 1 - y < image.height
        omega
      · show x < image.width
        exact hx
      · show image.pix x (image.height - 1 - (image.height - 1 - y)) = image.pix x y
        rw [show image.height - 1 - (image.height - 1 - y) = y by omega]
    · by_cases h8 : code = some 8
      · subst h8
        refine ⟨Nat.mul_comm _ _, fun x y hx hy => ?_⟩
        refine ⟨y, image.width - 1 - x, ?_, ?_, ?_⟩
        · show y < image.height
          exact hy
        · show image.width - 1 - x < image.width
          omega
        · show image.pix (image.width - 1 - (image.width - 1 - x)) y = image.pix x y
          rw [show image.width - 1 - (image.width - 1 - x) = x by omega]
      · rw [exifOrient_other code image h3 h6 h8] at hrot
        exact absurd hrot (by simp)

/-- C4 witness: orientation code 6 on the 200×100 sample rotates by 270°
with the canvas expanded (area preserved: the output is 100×200). -/
theorem c4_witness :
    exifOrient (some 6) imgW200H100 = (imgW200H100.rot270, true) ∧
      (exifOrient (some 6) imgW200H100).1.width * (exifOrient (some 6) imgW200H100).1.height =
        imgW200H100.width * imgW200H100.height :=
  ⟨(c4_orientation_normalizer imgW200H100 (some 6)).2.1,
    ((c4_orientation_normalizer imgW200H100 (some 6)).2.2.2.2 rfl).1⟩

/-- Helper: a document of declared image kind (extension not `pdf`) whose
bytes the codec cannot decode makes `clean_document_for_img_ocr` log a
warning and `return None` — never raise. -/
theorem clean_document_skips_unreadable (args : CleanDocArgs) (doc : SourceDoc)
    (hext : strLower (split_filename (pyBasename doc.relpath)).2 ≠ "pdf".toList)
    (hbad : doc.imageFrames = none) :
    clean_document_for_img_ocr args doc = Except.ok none := by
  simp only [clean_document_for_img_ocr]
  rw [if_neg hext, hbad]

/-- C7: in a batch run, a document of declared image kind with undecodable
bytes yields `None` (skipped, no entry in the result list), and the batch
result over any surrounding documents is exactly the result with the bad
document removed — sibling documents are unaffected and the failure is not
fatal. -/
theorem c7_unreadable_image_skipped_batch_continues (args : CleanDocArgs)
    (pre post : List SourceDoc) (bad : SourceDoc)
    (hext : strLower (split_filename (pyBasename bad.relpath)).2 ≠ "pdf".toList)
    (hbad : bad.imageFrames = none) :
    clean_document_for_img_ocr args bad = Except.ok none ∧
      clean_dataset_for_img_ocr args (pre ++ bad :: post) =
        clean_dataset_for_img_ocr args (pre ++ post) := by
  have hskip := clean_document_skips_unreadable args bad hext hbad
  refine ⟨hskip, ?_⟩
  induction pre with
  | nil =>
    simp only [List.nil_append, clean_dataset_for_img_ocr]
    rw [hskip]
  | cons a as ih =>
    simp only [List.cons_append, clean_dataset_for_img_ocr, List.append_eq]
    rw [ih]

/-- C7 witness: the undecodable `bad.png` document is skipped and removing
it from a batch does not change the batch result. -/
theorem c7_witness :
    (strLower (split_filename (pyBasename badDoc.relpath)).2 ≠ "pdf".toList ∧
        badDoc.imageFrames = none) ∧
      clean_document_for_img_ocr sampleArgs badDoc = Except.ok none ∧
        clean_dataset_for_img_ocr sampleArgs [okDoc, badDoc] =
          clean_dataset_for_img_ocr sampleArgs [okDoc] :=
  ⟨⟨by decide, rfl⟩,
    (c7_unreadable_image_skipped_batch_continues sampleArgs [okDoc] [] badDoc
      (by decide) rfl).1,
    (c7_unreadable_image_skipped_batch_continues sampleArgs [okDoc] [] badDoc
      (by decide) rfl).2⟩

/-- C3: a single-frame image document whose orientation code is not 3, 6
or 8 and whose lower-cased extension is among the allowed output formats
(no conversion, no rotation) is copied across verbatim: the single page
write is a byte-for-byte copy of the original file, so for every encoder
the output file's bytes equal the input file's bytes.  (Thumbnails
disabled, as when no thumbnail sink is configured.) -/
theorem c3_verbatim_copy_path (args : CleanDocArgs) (doc : SourceDoc)
    (code : Option Nat) (img : Image)
    (hframes : doc.imageFrames = some [⟨code, img⟩])
    (h3 : code ≠ some 3) (h6 : code ≠ some 6) (h8 : code ≠ some 8)
    (hext : strLower (split_filename (pyBasename doc.relpath)).2 ∈ args.allowed_formats)
    (hpdf : strLower (split_filename (pyBasename doc.relpath)).2 ≠ "pdf".toList)
    (hthumbs : args.thumbs_basepath = none) :
    ∃ p, clean_document_for_img_ocr args doc =
        Except.ok (some ⟨⟨pyJoin args.from_basepath doc.relpath, [p],
          splitOnChar '/' ((pyDirname doc.relpath).drop 1)⟩, [.copyBytes p]⟩) ∧
      (∀ encode, PageOutput.bytesWritten doc.bytes encode (.copyBytes p) = doc.bytes) := by
  refine ⟨pyJoin (pyJoin args.to_basepath (pyDirname doc.relpath)) (pyBasename doc.relpath),
    ?_, fun encode => rfl⟩
  have horient : exifOrient code img = (img, false) := exifOrient_other code img h3 h6 h8
  simp only [clean_document_for_img_ocr]
  rw [if_neg hpdf, hframes]
  rw [if_pos hext]
  simp only [processFrames, horient, hthumbs, List.length_cons, List.length_nil]
  simp

/-- C3 witness: the single-frame `photo.png` document with orientation code
1 is copied across verbatim, and the copied file's bytes are the source
bytes for every encoder. -/
theorem c3_witness :
    (okDoc.imageFrames = some [⟨some 1, imgW200H100⟩] ∧
        strLower (split_filename (pyBasename okDoc.relpath)).2 ∈ sampleArgs.allowed_formats ∧
        sampleArgs.thumbs_basepath = none) ∧
      ∃ p, clean_document_for_img_ocr sampleArgs okDoc =
          Except.ok (some ⟨⟨pyJoin sampleArgs.from_basepath okDoc.relpath, [p],
            splitOnChar '/' ((pyDirname okDoc.relpath).drop 1)⟩, [.copyBytes p]⟩) ∧
        (∀ encode, PageOutput.bytesWritten okDoc.bytes encode (.copyBytes p) = okDoc.bytes) :=
  ⟨⟨rfl, by decide, rfl⟩,
    c3_verbatim_copy_path sampleArgs okDoc (some 1) imgW200H100 rfl (by decide) (by decide)
      (by decide) (by decide) (by decide) rfl⟩

/-- Helper: `dropWhile` passes over a block that wholly satisfies the
predicate. -/
theorem dropWhile_append_all (p : Char → Bool) (xs ys : Str)
    (h : ∀ x ∈ xs, p x = true) :
    (xs ++ ys).dropWhile p = ys.dropWhile p := by
  induction xs with
  | nil => rfl
  | cons a as ih =>
    rw [List.cons_append, List.dropWhile_cons, if_pos (h a (List.mem_cons_self a as))]
    exact ih fun x hx => h x (List.mem_cons_of_mem a hx)

/-- Helper: `dropWhile` consumes a list that wholly satisfies the
predicate. -/
theorem dropWhile_all (p : Char → Bool) (xs : Str) (h : ∀ x ∈ xs, p x = true) :
    xs.dropWhile p = [] := by
  induction xs with
  | nil => rfl
  | cons a as ih =>
    rw [List.dropWhile_cons, if_pos (h a (List.mem_cons_self a as))]
    exact ih fun x hx => h x (List.mem_cons_of_mem a hx)

/-- Helper: a path without `/` has an empty `os.path.dirname`. -/
theorem pyDirname_no_slash (p : Str) (hp : '/' ∉ p) : pyDirname p = [] := by
  have hall : ∀ x ∈ p.reverse, ((x != '/') = true) := by
    intro x hx
    have hxm : x ∈ p := List.mem_reverse.mp hx
    simp only [bne_iff_ne]
    intro hEq
    exact hp (hEq ▸ hxm)
  have hdrop : p.reverse.dropWhile (fun c => c != '/') = [] :=
    dropWhile_all _ _ hall
  simp [pyDirname, hdrop]

/-- Helper: for a relative path `dir/fname` whose directory portion is
nonempty, does not start or end with `/`, and whose filename has no `/`,
`os.path.dirname` returns exactly the directory portion. -/
theorem pyDirname_append (dir fname : Str) (hd : dir ≠ [])
    (hh : dir.head? ≠ some '/') (hl : dir.getLast? ≠ some '/') (hf : '/' ∉ fname) :
    pyDirname (dir ++ '/' :: fname) = dir := by
  have hall : ∀ x ∈ fname.reverse, ((x != '/') = true) := by
    intro x hx
    have hxm : x ∈ fname := List.mem_reverse.mp hx
    simp only [bne_iff_ne]
    intro hEq
    exact hf (hEq ▸ hxm)
  have hrev : (dir ++ '/' :: fname).reverse = fname.reverse ++ '/' :: dir.reverse := by
    rw [List.reverse_append, List.reverse_cons, List.append_assoc, List.singleton_append]
  have hdrop : (dir ++ '/' :: fname).reverse.dropWhile (fun c => c != '/') =
      '/' :: dir.reverse := by
    rw [hrev, dropWhile_append_all _ fname.reverse _ hall, List.dropWhile_cons]
    simp
  obtain ⟨d, ds, hdir⟩ : ∃ d ds, dir = d :: ds := by
    cases dir with
    | nil => exact absurd rfl hd
    | cons d ds => exact ⟨d, ds, rfl⟩
  have hdne : d ≠ '/' := by
    intro hEq
    exact hh (by rw [hdir, hEq]; rfl)
  obtain ⟨e, es, hrev2⟩ : ∃ e es, dir.reverse = e :: es := by
    cases hc : dir.reverse with
    | nil => exact absurd (List.reverse_eq_nil_iff.mp hc) hd
    | cons e es => exact ⟨e, es, rfl⟩
  have hene : e ≠ '/' := by
    have hge : dir.reverse.head? = dir.getLast? := List.head?_reverse dir
    rw [hrev2] at hge
    intro hEq
    exact hl (by rw [← hge, hEq]; rfl)
  simp only [pyDirname]
  rw [hdrop, List.reverse_cons, List.reverse_reverse]
  rw [if_neg (by simp)]
  rw [if_neg ?hall2]
  case hall2 =>
    rw [hdir]
    simp only [List.cons_append, List.all_cons, Bool.and_eq_true]
    intro hcon
    exact hdne (by simpa using hcon.1)
  rw [show (dir ++ ['/']).reverse = '/' :: dir.reverse by simp]
  rw [List.dropWhile_cons, if_pos (by simp), hrev2, List.dropWhile_cons,
    if_neg (by simp [hene]), ← hrev2, List.reverse_reverse]

/-- Helper: whatever branch succeeds, the category labels in the returned
result are `subfolder[1:].split(os.path.sep)` for the document's directory
portion (inference.py line 220). -/
theorem clean_document_cats (args : CleanDocArgs) (doc : SourceDoc) (o : DocOutcome)
    (hok : clean_document_for_img_ocr args doc = Except.ok (some o)) :
    o.result.cats = splitOnChar '/' ((pyDirname doc.relpath).drop 1) := by
  simp only [clean_document_for_img_ocr] at hok
  split at hok
  · split at hok
    · injection hok with h1
      injection h1 with h2
      subst h2
      rfl
    · split at hok
      · exact Except.noConfusion hok
      · injection hok with h1
        injection h1 with h2
        subst h2
        rfl
  · split at hok
    · injection hok with h1
      exact Option.noConfusion h1
    · split at hok
      · exact Except.noConfusion hok
      · injection hok with h1
        injection h1 with h2
        subst h2
        rfl

/-- C10: for every successfully processed document, the category labels are
computed from the directory portion with its first character dropped: a
relative path `dir/fname` (with `dir` nonempty, not starting or ending in
the separator, and `fname` separator-free) yields
`split('/')` of `dir` minus its first character — e.g. `invoices/doc.pdf`
gives first category `nvoices` — and a document at the input root yields
the single empty-string category `[""]`. -/
theorem c10_category_labels_drop_first_char (args : CleanDocArgs) (doc : SourceDoc)
    (o : DocOutcome)
    (hok : clean_document_for_img_ocr args doc = Except.ok (some o)) :
    (∀ dir fname, doc.relpath = dir ++ '/' :: fname → dir ≠ [] →
      dir.head? ≠ some '/' → dir.getLast? ≠ some '/' → '/' ∉ fname →
      o.result.cats = splitOnChar '/' (dir.drop 1)) ∧
    ('/' ∉ doc.relpath → o.result.cats = [[]]) := by
  have hcats := clean_document_cats args doc o hok
  constructor
  · intro dir fname hrel hd hh hl hf
    rw [hcats, hrel, pyDirname_append dir fname hd hh hl hf]
  · intro hns
    rw [hcats, pyDirname_no_slash doc.relpath hns]
    rfl

/-- C10 witness: processing `invoices/doc.pdf` yields the category list
`["nvoices"]` — the directory portion with its first character dropped. -/
theorem c10_witness :
    clean_document_for_img_ocr sampleArgs invoiceDoc = Except.ok (some invoiceOutcome) ∧
      invoiceOutcome.result.cats = ["nvoices".toList] :=
  ⟨rfl,
    ((c10_category_labels_drop_first_char sampleArgs invoiceDoc invoiceOutcome rfl).1
        "invoices".toList "doc.pdf".toList rfl (by decide) (by decide) (by decide)
        (by decide)).trans (by decide)⟩

/-- C8: request deserialization succeeds exactly for the five supported
content kinds — the three single-image kinds additionally requiring that
the codec can decode the payload — and raises for every other content
kind; and response serialization raises whenever a single-image accept
kind is requested for a multi-page (document) result. -/
theorem c8_request_response_content_kinds :
    (∀ (decodeImage : List Nat → Option Image) (bytes : List Nat) (ct : String),
      (∃ r, input_fn decodeImage bytes ct = Except.ok r) ↔
        (((ct = "image/jpeg" ∨ ct = "image/jpg" ∨ ct = "image/png") ∧
            ∃ i, decodeImage bytes = some i) ∨
          ct = "image/tiff" ∨ ct = "application/pdf")) ∧
    (∀ (decodeImage : List Nat → Option Image) (bytes : List Nat) (ct : String),
      ct ≠ "image/jpeg" → ct ≠ "image/jpg" → ct ≠ "image/png" → ct ≠ "image/tiff" →
      ct ≠ "application/pdf" →
      ∃ e, input_fn decodeImage bytes ct = Except.error e) ∧
    (∀ (imgs : List Image) (accept : String),
      accept = "image/jpeg" ∨ accept = "image/jpg" ∨ accept = "image/png" →
      ∃ e, output_fn (.images imgs) accept = Except.error e) := by
  refine ⟨fun decodeImage bytes ct => ?_, fun decodeImage bytes ct h1 h2 h3 h4 h5 => ?_,
    fun imgs accept h => ?_⟩
  · by_cases h1 : ct = "image/jpeg"
    · subst h1
      have hin : input_fn decodeImage bytes "image/jpeg" =
          (match decodeImage bytes with
            | some img => Except.ok (.image img "JPG")
            | none => Except.error "UnidentifiedImageError") := rfl
      cases hdec : decodeImage bytes with
      | none =>
        rw [hin, hdec]
        constructor
        · rintro ⟨r, hr⟩
          exact Except.noConfusion hr
        · rintro (⟨_, i, hi⟩ | h | h)
          · exact Option.noConfusion hi
          · exact absurd h (by decide)
          · exact absurd h (by decide)
      | some i =>
        rw [hin, hdec]
        exact ⟨fun _ => Or.inl ⟨Or.inl rfl, i, rfl⟩, fun _ => ⟨_, rfl⟩⟩
    · by_cases h2 : ct = "image/jpg"
      · subst h2
        have hin : input_fn decodeImage bytes "image/jpg" =
            (match decodeImage bytes with
              | some img => Except.ok (.image img "JPG")
              | none => Except.error "UnidentifiedImageError") := rfl
        cases hdec : decodeImage bytes with
        | none =>
          rw [hin, hdec]
          constructor
          · rintro ⟨r, hr⟩
            exact Except.noConfusion hr
          · rintro (⟨_, i, hi⟩ | h | h)
            · exact Option.noConfusion hi
            · exact absurd h (by decide)
            · exact absurd h (by decide)
        | some i =>
          rw [hin, hdec]
          exact ⟨fun _ => Or.inl ⟨Or.inr (Or.inl rfl), i, rfl⟩, fun _ => ⟨_, rfl⟩⟩
      · by_cases h3 : ct = "image/png"
        · subst h3
          have hin : input_fn decodeImage bytes "image/png" =
              (match decodeImage bytes with
                | some img => Except.ok (.image img "PNG")
                | none => Except.error "UnidentifiedImageError") := rfl
          cases hdec : decodeImage bytes with
          | none =>
            rw [hin, hdec]
            constructor
            · rintro ⟨r, hr⟩
              exact Except.noConfusion hr
            · rintro (⟨_, i, hi⟩ | h | h)
              · exact Option.noConfusion hi
              · exact absurd h (by decide)
              · exact absurd h (by decide)
          | some i =>
            rw [hin, hdec]
            exact ⟨fun _ => Or.inl ⟨Or.inr (Or.inr rfl), i, rfl⟩, fun _ => ⟨_, rfl⟩⟩
        · by_cases h4 : ct = "image/tiff"
          · subst h4
            exact ⟨fun _ => Or.inr (Or.inl rfl), fun _ => ⟨.doc bytes "TIFF", rfl⟩⟩
          · by_cases h5 : ct = "application/pdf"
            · subst h5
              exact ⟨fun _ => Or.inr (Or.inr rfl), fun _ => ⟨.doc bytes "pdf", rfl⟩⟩
            · simp only [input_fn, singleImageFmt, multiImageFmt, if_neg h1, if_neg h2,
                if_neg h3, if_neg h4, PDF_CONTENT_TYPES, List.mem_singleton, if_neg h5]
              constructor
              · rintro ⟨r, hr⟩
                exact Except.noConfusion hr
              · rintro (⟨hc, _⟩ | h | h)
                · rcases hc with hc | hc | hc
                  · exact absurd hc h1
                  · exact absurd hc h2
                  · exact absurd hc h3
                · exact absurd h h4
                · exact absurd h h5
  · simp only [input_fn, singleImageFmt, multiImageFmt, if_neg h1, if_neg h2, if_neg h3,
      if_neg h4, PDF_CONTENT_TYPES, List.mem_singleton, if_neg h5]
    exact ⟨_, rfl⟩
  · rcases h with h | h | h
    · subst h
      exact ⟨_, rfl⟩
    · subst h
      exact ⟨_, rfl⟩
    · subst h
      exact ⟨_, rfl⟩

/-- C8 witness: an unrecognized content kind (`text/plain`) is rejected at
deserialization, and requesting `image/png` for a multi-page result is
rejected at serialization. -/
theorem c8_witness :
    ("text/plain" ≠ ("image/jpeg" : String) ∧ "text/plain" ≠ ("image/jpg" : String) ∧
        "text/plain" ≠ ("image/png" : String) ∧ "text/plain" ≠ ("image/tiff" : String) ∧
        "text/plain" ≠ ("application/pdf" : String)) ∧
      (∃ e, input_fn (fun _ => none) [] "text/plain" = Except.error e) ∧
      (∃ e, output_fn (.images []) "image/png" = Except.error e) :=
  ⟨⟨by decide, by decide, by decide, by decide, by decide⟩,
    c8_request_response_content_kinds.2.1 (fun _ => none) [] "text/plain" (by decide)
      (by decide) (by decide) (by decide) (by decide),
    c8_request_response_content_kinds.2.2 [] "image/png" (Or.inr (Or.inr rfl))⟩
